import Mathlib

/-!
Verification of the MyPyFEM nonlinear-FEM core against its design
specification.  The development shallowly embeds the three source files
src/element_calculation/ElementForceAndStiffness.py, src/femdb/NLDomain.py and
src/element/Beam.py.  numpy arrays are modelled as total functions on
natural-number indices with rational entries; only indices inside the array
bounds are meaningful, entries outside the bounds are junk that no theorem
inspects.  Calls from these files into collaborator modules that are not part
of the embedded sources (the Kinematics engine, CauchyTypeSelection,
ElasticityModulusSelection, ConstitutiveMatrix, GeometricMatrix,
NLFEMDataBase) enter the embedding as explicit inputs or parameters, each
marked in its doc string.
-/

namespace MyPyFEM

/-- Dense matrix product with inner dimension kdim, modelling np.matmul:
(mMul kdim A B) i j = sum over t below kdim of A i t * B t j. -/
def mMul (kdim : ℕ) (A B : ℕ → ℕ → ℚ) : ℕ → ℕ → ℚ :=
  fun i j => ∑ t ∈ Finset.range kdim, A i t * B t j

/-- numpy transpose of a 2-D array. -/
def mTrans (A : ℕ → ℕ → ℚ) : ℕ → ℕ → ℚ := fun i j => A j i

/-- Kronecker delta, the entries of np.eye. -/
def kron (i j : ℕ) : ℚ := if i = j then 1 else 0

/-- IdentityTensor from src/femdb/NLDomain.py.  I = np.eye(dimension);
c1[i,j,k,l] = I[i,j]*I[k,l]; c2[i,j,k,l] = I[i,k]*I[j,l] + I[i,l]*I[j,k]
(the quadruple loop accumulates exactly these products starting from zeros).
Entries are meaningful for indices below the dimension; the function model
extends the same formula everywhere. -/
structure IdentityTensor where
  I : ℕ → ℕ → ℚ
  c1 : ℕ → ℕ → ℕ → ℕ → ℚ
  c2 : ℕ → ℕ → ℕ → ℕ → ℚ

/-- Constructor IdentityTensor.__init__ from src/femdb/NLDomain.py. -/
def IdentityTensor.make (_dimension : ℕ) : IdentityTensor :=
  { I := fun i j => kron i j
    c1 := fun i j k l => kron i j * kron k l
    c2 := fun i j k l => kron i k * kron j l + kron i l * kron j k }

/-- Material table entry (femdb.Material is outside the embedded sources; the
embedding keeps the single variant the core supports, carrying the bulk
modulus read from mat.value_dict[MaterialKey.Kappa], and an opaque variant
for every other material class). -/
inductive Material where
  | HyperElasticPlasticInPrincipal (kappa : ℚ)
  | OtherMaterial (name : String)
deriving DecidableEq

/-- mat.GetName(). -/
def Material.GetName : Material → String
  | .HyperElasticPlasticInPrincipal _ => "HyperElasticPlasticInPrincipal"
  | .OtherMaterial s => s

/-- isinstance(mat, HyperElasticPlasticInPrincipal). -/
def Material.isHyperElasticPlasticInPrincipal : Material → Bool
  | .HyperElasticPlasticInPrincipal _ => true
  | .OtherMaterial _ => false

/-- mat.value_dict[MaterialKey.Kappa]. -/
def Material.kappaValue : Material → ℚ
  | .HyperElasticPlasticInPrincipal k => k
  | .OtherMaterial _ => 0

/-- GlobalK from src/femdb/NLDomain.py: the shared triplet buffer
(row indices, column indices, values) and the write cursor. -/
structure GlobalK where
  indexi : ℕ → ℕ
  indexj : ℕ → ℕ
  stiffness : ℕ → ℚ
  counter : ℕ

/-- Slice assignment arr[start:start+len, 0] = vals on all three triplet
arrays at once, as performed by one node-pair iteration of the
mean-dilatation loop.  The cursor field is not touched. -/
def writeBlock (gk : GlobalK) (start len : ℕ) (ii jj : ℕ → ℕ) (vv : ℕ → ℚ) : GlobalK :=
  { indexi := fun p => if start ≤ p ∧ p < start + len then ii (p - start) else gk.indexi p
    indexj := fun p => if start ≤ p ∧ p < start + len then jj (p - start) else gk.indexj p
    stiffness := fun p => if start ≤ p ∧ p < start + len then vv (p - start) else gk.stiffness p
    counter := gk.counter }

/-- Element metadata grp.element_info used by ElementForceAndStiffness. -/
structure ElementInfo where
  n_dofs_elem : ℕ
  n_nodes_elem : ℕ
  ngauss : ℕ

/-- State of the kinematics engine read by ElementForceAndStiffness after the
call KINEMATICS.ComputeGradients(xlocal, Xlocal, element_DN_chi).
Modelled from the spec: the Kinematics engine (not under src/) computes, per
Gauss point, the current-configuration Jacobian determinant Jx_chi and the
spatial shape-function derivatives DN_Dx; the embedding takes the computed
state as an input.  DN_Dx ig i a models KINEMATICS.DN_Dx[i, a, ig]. -/
structure KinematicsState where
  Jx_chi : ℕ → ℚ
  DN_Dx : ℕ → ℕ → ℕ → ℚ

/-- Everything ElementForceAndStiffness reads besides the material and the
shared triplet buffer. -/
structure EFSContext where
  /-- GetDomainDimension(), the spatial dimension. -/
  dim : ℕ
  /-- grp.element_info. -/
  element_info : ElementInfo
  /-- grp.quadrature.element_w, also read as
  grp.interpolation.quadrature.element_w: the quadrature weights. -/
  element_w : ℕ → ℚ
  /-- grp.interpolation.element_DN_chi; element_DN_chi ii i a models
  element_DN_chi[i, a, ii]. -/
  element_DN_chi : ℕ → ℕ → ℕ → ℚ
  /-- Kinematics state after ComputeGradients (see KinematicsState). -/
  kin : KinematicsState
  /-- Ve, the reference elemental volume argument. -/
  Ve : ℚ
  /-- Model of np.log (the embedding is parametric in the logarithm). -/
  log : ℚ → ℚ
  /-- Modelled from the spec: CauchyTypeSelection (constitutive_laws, not
  under src/) returns the deviatoric Cauchy stress at each Gauss point from
  the plastic history; CauchySel ig i j is its (i,j) entry at Gauss point
  ig. -/
  CauchySel : ℕ → ℕ → ℕ → ℚ
  /-- Modelled from the spec: ElasticityModulusSelection (not under src/)
  returns the deviatoric spatial elasticity tensor at each Gauss point. -/
  ElasticitySel : ℕ → ℕ → ℕ → ℕ → ℕ → ℚ
  /-- Modelled from the spec: ConstitutiveMatrix(grp, ele, igauss, c, JW)
  (element_calculation.ConstitutiveMatrix, not under src/) accumulates the
  constitutive stiffness triplets into the shared global buffer; modelled as
  an update of the GlobalK store receiving the Gauss index, the elasticity
  tensor and the integration multiplier JW. -/
  ConstitutiveMatrixCall : ℕ → (ℕ → ℕ → ℕ → ℕ → ℚ) → ℚ → GlobalK → GlobalK
  /-- Modelled from the spec: GeometricMatrix(grp, ele, DN_sigma_DN, JW)
  (not under src/) accumulates the geometric stiffness triplets. -/
  GeometricMatrixCall : (ℕ → ℕ → ℚ) → ℚ → GlobalK → GlobalK
  /-- ele.node_ids (1-based node numbers of this element). -/
  node_ids : ℕ → ℕ
  /-- MESH.dof_nodes; dof_nodes i nd is row i, column nd (0-based). -/
  dof_nodes : ℕ → ℕ → ℕ
  /-- grp.global_plasticity.epbar[:, ele_idx], carried opaquely. -/
  epbar : ℚ
  /-- grp.global_plasticity.invCp[:, :, :, ele_idx], carried opaquely. -/
  invCp : ℚ

/-- PlasticDeformationState from femdb.Plasticity as populated by
ElementForceAndStiffness: the epbar and invCp slices of the group store for
this element, carried opaquely. -/
structure PlasticDeformationState where
  epbar : ℚ
  invCp : ℚ
deriving DecidableEq

/-- NoImplSuchMaterial raised with the material's name. -/
inductive EFSError where
  | NoImplSuchMaterial (name : String)
deriving DecidableEq

/-- Return value of ElementForceAndStiffness: the internal force column
vector (entry idx models T_internal[idx, 0]) and the element plastic
state. -/
structure EFSResult where
  T_internal : ℕ → ℚ
  PLAST_element : PlasticDeformationState

/-- JW = KINEMATICS.Jx_chi[ig] * element_w[ig], the integration
multiplier. -/
def JW_at (ctx : EFSContext) (ig : ℕ) : ℚ := ctx.kin.Jx_chi ig * ctx.element_w ig

/-- ve, the deformed elemental volume: quadrature sum of JW. -/
def ve_of (ctx : EFSContext) : ℚ :=
  ∑ ii ∈ Finset.range ctx.element_info.ngauss, JW_at ctx ii

/-- DN_x_mean: elemental averaged shape-function gradients, the JW-weighted
sum of element_DN_chi over Gauss points divided by ve. -/
def DN_x_mean_of (ctx : EFSContext) : ℕ → ℕ → ℚ :=
  fun i a =>
    (∑ ii ∈ Finset.range ctx.element_info.ngauss, ctx.element_DN_chi ii i a * JW_at ctx ii)
      / ve_of ctx

/-- Lines 60-66 of ElementForceAndStiffness.py: the inner
isinstance(mat, HyperElasticPlasticInPrincipal) check; the then branch
computes press and kappa_bar from kappa and Jbar, the else branch assigns
kappa_bar = 0, press = 0.  Returns the pair (press, kappa_bar). -/
def pressAndKappaBar (mat : Material) (Jbar : ℚ) (log : ℚ → ℚ) : ℚ × ℚ :=
  match mat with
  | .HyperElasticPlasticInPrincipal kappa =>
      (kappa * log Jbar / Jbar, kappa / Jbar - kappa * log Jbar / Jbar)
  | .OtherMaterial _ => (0, 0)

/-- The then branch of the inner check in isolation (press and kappa_bar as
functions of the material's kappa), used to state that the else branch is
never the one executed. -/
def pressureBranch (kappa Jbar : ℚ) (log : ℚ → ℚ) : ℚ × ℚ :=
  (kappa * log Jbar / Jbar, kappa / Jbar - kappa * log Jbar / Jbar)

/-- Cauchy stress used at Gauss point ig after the pressure contribution:
Cauchy = CauchyTypeSelection result + press * IDENTITY_TENSOR.I. -/
def CauchyAt (ctx : EFSContext) (press : ℚ) (ig : ℕ) : ℕ → ℕ → ℚ :=
  fun i j => ctx.CauchySel ig i j + press * (IdentityTensor.make ctx.dim).I i j

/-- Elasticity tensor used at Gauss point ig after the pressure
contribution: c = ElasticityModulusSelection result
+ press * (IDENTITY_TENSOR.c1 - IDENTITY_TENSOR.c2). -/
def elasticityAt (ctx : EFSContext) (press : ℚ) (ig : ℕ) : ℕ → ℕ → ℕ → ℕ → ℚ :=
  fun i j k l => ctx.ElasticitySel ig i j k l
    + press * ((IdentityTensor.make ctx.dim).c1 i j k l - (IdentityTensor.make ctx.dim).c2 i j k l)

/-- One entry of the flattened Gauss-point force contribution
T.T.reshape(T.size, 1) where T = Cauchy @ DN_Dx[:, :, ig]:
entry idx = anode * dim + jcomp holds T[jcomp, anode]. -/
def T_flat_entry (ctx : EFSContext) (press : ℚ) (ig idx : ℕ) : ℚ :=
  mMul ctx.dim (CauchyAt ctx press ig) (ctx.kin.DN_Dx ig) (idx % ctx.dim) (idx / ctx.dim)

/-- T_internal as accumulated by the Gauss loop of the source: the plain sum
of the flattened per-Gauss contributions (the loop adds T.T.reshape(...)
without any further factor). -/
def T_internal_of (ctx : EFSContext) (press : ℚ) : ℕ → ℚ :=
  fun idx => ∑ ig ∈ Finset.range ctx.element_info.ngauss, T_flat_entry ctx press ig idx

/-- Stated from the spec's words (claim C1): the internal force vector as the
Gauss-weighted sum of the per-Gauss contributions, each scaled by its
integration multiplier JW.  To be compared with T_internal_of, which embeds
the source. -/
def T_internal_specWeighted (ctx : EFSContext) (press : ℚ) : ℕ → ℚ :=
  fun idx => ∑ ig ∈ Finset.range ctx.element_info.ngauss,
    JW_at ctx ig * T_flat_entry ctx press ig idx

/-- One Gauss iteration's effect on the shared triplet buffer: the calls
ConstitutiveMatrix(grp, ele, igauss, c, JW) and then
GeometricMatrix(grp, ele, DN_sigma_DN, JW) with
DN_sigma_DN = DN_Dx.T @ (Cauchy @ DN_Dx). -/
def gaussStep (ctx : EFSContext) (press : ℚ) (ig : ℕ) (gk : GlobalK) : GlobalK :=
  let gk1 := ctx.ConstitutiveMatrixCall ig (elasticityAt ctx press ig) (JW_at ctx ig) gk
  let DN_sigma_DN := mMul ctx.dim (mTrans (ctx.kin.DN_Dx ig))
    (mMul ctx.dim (CauchyAt ctx press ig) (ctx.kin.DN_Dx ig))
  ctx.GeometricMatrixCall DN_sigma_DN (JW_at ctx ig) gk1

/-- The Gauss quadrature loop's effect on the shared triplet buffer. -/
def gaussAssembly (ctx : EFSContext) (press : ℚ) (gk : GlobalK) : GlobalK :=
  (List.range ctx.element_info.ngauss).foldl (fun acc ig => gaussStep ctx press ig acc) gk

/-- One (bnode, anode) iteration of the mean-dilatation loop, lines 131-149
of ElementForceAndStiffness.py: with the local cursor at start it writes a
block of dim*dim triplets.  Block offset k (k below dim*dim): the row index
is dof_nodes[k mod dim, node_ids[anode]-1] (np.tile(indexi, (1, dim))
repeats the dof column dim times), the column index is
dof_nodes[k mod dim, node_ids[bnode]-1] (the same tile pattern; the
transpose of the 1-by-dim*dim tile is flattened in the same order), and the
value is kappa_bar * ve * outer(DN_x_mean[:,anode], DN_x_mean[:,bnode])
flattened in row-major order, entry k = (k div dim, k mod dim). -/
def mdPairWrite (d : ℕ) (dofn : ℕ → ℕ → ℕ) (nid : ℕ → ℕ) (DNxm : ℕ → ℕ → ℚ)
    (kappa_bar ve : ℚ) (start bnode anode : ℕ) (gk : GlobalK) : GlobalK :=
  writeBlock gk start (d * d)
    (fun k => dofn (k % d) (nid anode - 1))
    (fun k => dofn (k % d) (nid bnode - 1))
    (fun k => kappa_bar * ve * (DNxm (k / d) anode * DNxm (k % d) bnode))

/-- Processing of the first q ordered node pairs of the mean-dilatation
double loop (outer bnode, inner anode: pair t has bnode = t div n,
anode = t mod n) with the local cursor starting at c0; pair t writes its
block at c0 + t * d * d.  The shared cursor field is never assigned. -/
def mdIter (d n : ℕ) (dofn : ℕ → ℕ → ℕ) (nid : ℕ → ℕ) (DNxm : ℕ → ℕ → ℚ)
    (kappa_bar ve : ℚ) (c0 : ℕ) : ℕ → GlobalK → GlobalK
  | 0, gk => gk
  | q + 1, gk =>
      mdPairWrite d dofn nid DNxm kappa_bar ve (c0 + q * (d * d)) (q / n) (q % n)
        (mdIter d n dofn nid DNxm kappa_bar ve c0 q gk)

/-- Lines 129-151 of ElementForceAndStiffness.py: counter =
fem_db.global_k.counter is read into a local, the double loop over
(bnode, anode) writes one dim*dim block per ordered node pair and advances
only the local copy; the new local value is never stored back. -/
def meanDilatationAssembly (ctx : EFSContext) (kappa_bar ve : ℚ) (DNxm : ℕ → ℕ → ℚ)
    (gk : GlobalK) : GlobalK :=
  mdIter ctx.dim ctx.element_info.n_nodes_elem ctx.dof_nodes ctx.node_ids DNxm kappa_bar ve
    gk.counter (ctx.element_info.n_nodes_elem * ctx.element_info.n_nodes_elem) gk

/-- Stated from the spec's words (claims C2 and C4): the number of triplet
slots one element is meant to commit: (dofs per element) squared plus dim
squared entries for each of the n_nodes_elem squared ordered node pairs. -/
def specTripletAdvance (ctx : EFSContext) : ℕ :=
  ctx.element_info.n_dofs_elem ^ 2 + ctx.element_info.n_nodes_elem ^ 2 * ctx.dim ^ 2

/-- ElementForceAndStiffness from
src/element_calculation/ElementForceAndStiffness.py.  The pair is (function
result, final state of the shared triplet buffer fem_db.global_k); a raise
of NoImplSuchMaterial is the error value, with the buffer in the state it
had at the raise.  Control flow follows the source: the outer material
check (line 43, with the line 68-69 raise), the mean-dilatation kinematics
ve, DN_x_mean, Jbar, the inner check computing press and kappa_bar (lines
60-66), the plastic-state check (lines 80-85 with its raise), the Gauss
loop (force accumulation plus the two assembly calls), and the
mean-dilatation triplet loop guarded by the final check (line 130). -/
def ElementForceAndStiffness (ctx : EFSContext) (mat : Material) (gk : GlobalK) :
    Except EFSError EFSResult × GlobalK :=
  if mat.isHyperElasticPlasticInPrincipal then
    let ve := ve_of ctx
    let DNxm := DN_x_mean_of ctx
    let Jbar := ve / ctx.Ve
    let pk := pressAndKappaBar mat Jbar ctx.log
    let press := pk.1
    let kappa_bar := pk.2
    if mat.isHyperElasticPlasticInPrincipal then
      let PLAST_element : PlasticDeformationState := ⟨ctx.epbar, ctx.invCp⟩
      let gk1 := gaussAssembly ctx press gk
      let gk2 :=
        if mat.isHyperElasticPlasticInPrincipal then
          meanDilatationAssembly ctx kappa_bar ve DNxm gk1
        else gk1
      (.ok ⟨T_internal_of ctx press, PLAST_element⟩, gk2)
    else (.error (.NoImplSuchMaterial mat.GetName), gk)
  else (.error (.NoImplSuchMaterial mat.GetName), gk)

/-- The three solver drivers that NLDomain.ChooseIncrementalAlgorithm can
run. -/
inductive IncrementalAlgorithm where
  | NewtonRaphson
  | LineSearchNewtonRaphson
  | ArcLengthNewtonRaphson
deriving DecidableEq

/-- The two fields of fem_db.SolveControl read by the dispatcher: the
arc-length magnitude CON.arcln and the line-search flag CON.searc. -/
structure SolveControl where
  arcln : ℚ
  searc : Bool

/-- NLDomain.ChooseIncrementalAlgorithm from src/femdb/NLDomain.py,
returning which of the three algorithms the call runs:
if abs(CON.arcln) == 0 then (plain Newton-Raphson when not CON.searc,
line-search Newton-Raphson otherwise) else arc-length Newton-Raphson. -/
def ChooseIncrementalAlgorithm (CON : SolveControl) : IncrementalAlgorithm :=
  if |CON.arcln| = 0 then
    if !CON.searc then .NewtonRaphson else .LineSearchNewtonRaphson
  else .ArcLengthNewtonRaphson

/-- Object identities of the seven attributes NLDomain.__init__ assigns, in
assignment order (fem_db, identity_tensor, right_hand_item, kinematics,
plastics, aux_variant, global_k).  Each value is the id of the object the
attribute refers to. -/
structure NLAttrs where
  fem_db : ℕ
  identity_tensor : ℕ
  right_hand_item : ℕ
  kinematics : ℕ
  plastics : ℕ
  aux_variant : ℕ
  global_k : ℕ
deriving DecidableEq

/-- Heap model for the NLDomain class of src/femdb/NLDomain.py:
instanceSlot is the class variable NLDomain._instance (None or the id of
the stored instance), attrs the attribute slots of that instance (None
before the first __init__), nextId a fresh-object allocator: every
constructor call returns a new id. -/
structure PyHeapState where
  instanceSlot : Option ℕ
  attrs : Option NLAttrs
  nextId : ℕ
deriving DecidableEq

/-- NLDomain.__new__: return the stored instance if _instance is not None,
else allocate a fresh object and store it. -/
def NLDomain_new (s : PyHeapState) : PyHeapState × ℕ :=
  match s.instanceSlot with
  | some i => (s, i)
  | none => (⟨some s.nextId, s.attrs, s.nextId + 1⟩, s.nextId)

/-- NLDomain.__init__: assigns the seven attributes, each from a constructor
call that produces a fresh object.  IdentityTensor, RightHandItem,
Kinematics, Plasticity, AuxVariant and GlobalK are ordinary classes
(IdentityTensor, AuxVariant and GlobalK are defined in
src/femdb/NLDomain.py itself), so each call allocates a new object.
Modelled from the spec for the first slot only: NLFEMDataBase is not under
src/ and is modelled as an ordinary constructor call too; none of the
theorems below depends on the fem_db slot. -/
def NLDomain_init (s : PyHeapState) : PyHeapState :=
  ⟨s.instanceSlot,
   some ⟨s.nextId, s.nextId + 1, s.nextId + 2, s.nextId + 3, s.nextId + 4,
         s.nextId + 5, s.nextId + 6⟩,
   s.nextId + 7⟩

/-- The Python call NLDomain(): type.__call__ runs __new__ and then always
runs __init__ on the returned instance.  Returns the new heap state and the
id of the returned instance. -/
def NLDomain_call (s : PyHeapState) : PyHeapState × ℕ :=
  let sn := NLDomain_new s
  (NLDomain_init sn.1, sn.2)

/-- Fresh process state: NLDomain._instance is None and no attributes
exist. -/
def pyStart : PyHeapState := ⟨none, none, 0⟩

/-- Python runtime errors that the Beam188.ElementStiffness body can
raise. -/
inductive PyError where
  | AttributeError (name : String)
  | AssertionError
  | SystemExitOne
deriving DecidableEq

/-- Beam section type tags used by src/element/Beam.py (the enum lives
outside the embedded sources; the three tags the code compares against plus
an opaque tag for any other value). -/
inductive BeamSectionType where
  | SecI
  | Rectangle
  | CircleSolid
  | OtherSection (s : String)
deriving DecidableEq

/-- The dictionary returned by CalculateMomentOfInertiaOfArea: the values
at keys SectionKey.It, SectionKey.Is, SectionKey.Tor. -/
structure SectionDict where
  It : ℚ
  Is : ℚ
  Tor : ℚ
deriving DecidableEq

/-- BeamCalculator.CalculateMomentOfInertiaOfArea from src/element/Beam.py,
over exact rationals with np.pi passed in as a parameter.  A failed assert
raises AssertionError; the final else logs and calls sys.exit(1). -/
def CalculateMomentOfInertiaOfArea (pi : ℚ) (sec_type : BeamSectionType)
    (sec_data : List ℚ) : Except PyError SectionDict :=
  match sec_type with
  | .SecI =>
      if sec_data.length = 6 then
        let w := sec_data.getD 0 0
        let h := sec_data.getD 2 0
        let tf := sec_data.getD 3 0
        let tw := sec_data.getD 5 0
        let It := w * h ^ 3 / 12 - (w - tw) * (h - 2 * tf) ^ 3 / 12
        let Is := (h - 2 * tf) * tw ^ 3 / 12 + tf * w ^ 3 / 6
        let a := sec_data.getD 0 0
        let b := sec_data.getD 3 0
        let c := sec_data.getD 2 0 - 2 * sec_data.getD 3 0
        let dd := sec_data.getD 5 0
        let K1 := a * b ^ 3 / 3 - 21 / 100 * b ^ 4 - 175 / 10000 * b ^ 8 / a ^ 4
        let K2 := c * dd ^ 3 / 3
        let D := (b ^ 2 + dd * dd / 4) / b
        let alpha := if b < dd then b / dd * 15 / 100 else dd / b * 15 / 100
        .ok ⟨It, Is, 2 * K1 + K2 + 2 * alpha * D ^ 4⟩
      else .error .AssertionError
  | .Rectangle =>
      if sec_data.length = 2 then
        let a := max (sec_data.getD 0 0) (sec_data.getD 1 0)
        let b := min (sec_data.getD 0 0) (sec_data.getD 1 0)
        let It := b ^ 3 * a / 12
        let Is := a ^ 3 * b / 12
        let Tor := if a = b then 9 * a ^ 4 / 64
          else a * b ^ 3 * (16 / 3 - 336 / 100 * b / a * (1 - (b / a) ^ 4 / 12)) / 16
        .ok ⟨It, Is, Tor⟩
      else .error .AssertionError
  | .CircleSolid =>
      if sec_data.length = 1 then
        let I := 1 / 4 * pi * (sec_data.getD 0 0) ^ 4
        .ok ⟨I, I, I * 2⟩
      else .error .AssertionError
  | .OtherSection _ => .error .SystemExitOne

/-- The attribute names the class BeamCalculator defines in
src/element/Beam.py: exactly its two static methods. -/
def BeamCalculatorAttributes : List String :=
  ["CalculateMomentOfInertiaOfArea", "CalEffectiveShearArea"]

/-- Python attribute lookup on the BeamCalculator class: AttributeError when
the name is not defined on the class. -/
def BeamCalculatorGetattr (name : String) : Except PyError Unit :=
  if name ∈ BeamCalculatorAttributes then .ok () else .error (.AttributeError name)

/-- Inputs of Beam188.ElementStiffness: the asserted (3, 3) node-coordinate
array (node_coords r c, rows 0-2 meaningful), the material and property
values read from self.cha_dict, the section type and data, and models of
np.sqrt and np.pi (the embedding is parametric in both). -/
structure Beam188Input where
  node_coords : ℕ → ℕ → ℚ
  E : ℚ
  A : ℚ
  G : ℚ
  sqrt : ℚ → ℚ
  pi : ℚ
  sec_type : BeamSectionType
  sec_data : List ℚ

/-- Beam188.ElementStiffness from src/element/Beam.py.  After computing
delta, the element length L and the section inertia dictionary, the body
evaluates BeamCalculator.GetEquivalentCoff - an attribute the class does
not define - so the line k1, k2 = BeamCalculator.GetEquivalentCoff(...)
raises AttributeError on every execution that reaches it; everything after
that line is dead, and the coordinate-transformation step and the return at
the end of the method are commented out in the source, so a body that ran
to the end would fall off and produce None (the .ok none value). -/
def Beam188ElementStiffness (inp : Beam188Input) :
    Except PyError (Option (ℕ → ℕ → ℚ)) :=
  let delta : ℕ → ℚ := fun j => inp.node_coords 1 j - inp.node_coords 0 j
  let _L := inp.sqrt (∑ j ∈ Finset.range 3, delta j * delta j)
  match CalculateMomentOfInertiaOfArea inp.pi inp.sec_type inp.sec_data with
  | .error e => .error e
  | .ok _I =>
      match BeamCalculatorGetattr "GetEquivalentCoff" with
      | .error e => .error e
      | .ok _ => .ok none

/-- First component of the pair returned by ElementForceAndStiffness, viewed
as the internal-force entry at index idx when the call succeeded. -/
def resultForceEntry (r : Except EFSError EFSResult × GlobalK) (idx : ℕ) : Option ℚ :=
  match r.1 with
  | .ok res => some (res.T_internal idx)
  | .error _ => none

/-- Empty shared triplet buffer with the cursor at its reset value zero. -/
def gkZero : GlobalK := ⟨fun _ => 0, fun _ => 0, fun _ => 0, 0⟩

/-- Concrete one-node, one-Gauss-point, two-dimensional element: Jacobian
determinant 2 and unit quadrature weight, so JW = 2; unit Cauchy stress;
spatial gradient with a single nonzero entry; the two missing assembly
subroutines instantiated as buffer-preserving. -/
def ctxC1 : EFSContext :=
  { dim := 2
    element_info := ⟨2, 1, 1⟩
    element_w := fun _ => 1
    element_DN_chi := fun _ _ _ => 0
    kin := ⟨fun _ => 2, fun _ i a => if i = 0 ∧ a = 0 then 1 else 0⟩
    Ve := 2
    log := fun _ => 0
    CauchySel := fun _ i j => kron i j
    ElasticitySel := fun _ _ _ _ _ => 0
    ConstitutiveMatrixCall := fun _ _ _ gk => gk
    GeometricMatrixCall := fun _ _ gk => gk
    node_ids := fun _ => 1
    dof_nodes := fun _ _ => 0
    epbar := 0
    invCp := 0 }

/-- Concrete two-node, one-Gauss-point, two-dimensional element
(n_dofs_elem = 4).  The out-of-src assembly subroutines are instantiated
per the spec's cursor discipline: the constitutive/geometric block commits
its n_dofs_elem squared = 16 triplets by advancing the shared cursor. -/
def ctxC2 : EFSContext :=
  { ctxC1 with
    element_info := ⟨4, 2, 1⟩
    kin := ⟨fun _ => 1, fun _ _ _ => 0⟩
    Ve := 1
    ConstitutiveMatrixCall := fun _ _ _ gk =>
      ⟨gk.indexi, gk.indexj, gk.stiffness, gk.counter + 16⟩ }

/-- Concrete two-node, two-dimensional element with injective DOF map, used
to instantiate the mean-dilatation block theorem. -/
def ctxC4 : EFSContext :=
  { ctxC1 with
    element_info := ⟨4, 2, 1⟩
    node_ids := fun a => a + 1
    dof_nodes := fun i nd => 10 * nd + i }

/-- Concrete element-averaged gradient array for the same instantiation. -/
def DNxmW : ℕ → ℕ → ℚ := fun i a => (i : ℚ) + a

theorem mdIter_counter (d n : ℕ) (dofn : ℕ → ℕ → ℕ) (nid : ℕ → ℕ) (DNxm : ℕ → ℕ → ℚ)
    (kb ve : ℚ) (c0 : ℕ) :
    ∀ (q : ℕ) (gk : GlobalK), (mdIter d n dofn nid DNxm kb ve c0 q gk).counter = gk.counter := by
  intro q
  induction q with
  | zero => intro gk; rfl
  | succ q ih => intro gk; simp [mdIter, mdPairWrite, writeBlock, ih]

theorem gaussAssembly_counter_eq (ctx : EFSContext) (press : ℚ)
    (hC : ∀ ig c jw gk, (ctx.ConstitutiveMatrixCall ig c jw gk).counter = gk.counter)
    (hG : ∀ M jw gk, (ctx.GeometricMatrixCall M jw gk).counter = gk.counter) :
    ∀ (l : List ℕ) (gk : GlobalK),
      (l.foldl (fun acc ig => gaussStep ctx press ig acc) gk).counter = gk.counter := by
  intro l
  induction l with
  | nil => intro gk; rfl
  | cons a t ih =>
      intro gk
      simp only [List.foldl_cons]
      rw [ih]
      simp [gaussStep, hC, hG]

theorem mdIter_frame (d n : ℕ) (dofn : ℕ → ℕ → ℕ) (nid : ℕ → ℕ) (DNxm : ℕ → ℕ → ℚ)
    (kb ve : ℚ) (c0 : ℕ) :
    ∀ (q : ℕ) (gk : GlobalK) (p : ℕ), p < c0 ∨ c0 + q * (d * d) ≤ p →
      (mdIter d n dofn nid DNxm kb ve c0 q gk).indexi p = gk.indexi p
      ∧ (mdIter d n dofn nid DNxm kb ve c0 q gk).indexj p = gk.indexj p
      ∧ (mdIter d n dofn nid DNxm kb ve c0 q gk).stiffness p = gk.stiffness p := by
  intro q
  induction q with
  | zero => intro gk p _; exact ⟨rfl, rfl, rfl⟩
  | succ q ih =>
      intro gk p hp
      have hout : ¬(c0 + q * (d * d) ≤ p ∧ p < c0 + q * (d * d) + d * d) := by
        rcases hp with h | h
        · omega
        · have : c0 + q * (d * d) + d * d ≤ p := by
            have : (q + 1) * (d * d) = q * (d * d) + d * d := by ring
            omega
          omega
      have hrec : p < c0 ∨ c0 + q * (d * d) ≤ p := by
        rcases hp with h | h
        · exact Or.inl h
        · right
          have : (q + 1) * (d * d) = q * (d * d) + d * d := by ring
          omega
      obtain ⟨h1, h2, h3⟩ := ih gk p hrec
      simp only [mdIter, mdPairWrite, writeBlock]
      rw [if_neg hout, if_neg hout, if_neg hout]
      exact ⟨h1, h2, h3⟩

theorem mdIter_content (d n : ℕ) (dofn : ℕ → ℕ → ℕ) (nid : ℕ → ℕ) (DNxm : ℕ → ℕ → ℚ)
    (kb ve : ℚ) (c0 : ℕ) :
    ∀ (q : ℕ) (gk : GlobalK) (t k : ℕ), t < q → k < d * d →
      (mdIter d n dofn nid DNxm kb ve c0 q gk).indexi (c0 + t * (d * d) + k)
        = dofn (k % d) (nid (t % n) - 1)
      ∧ (mdIter d n dofn nid DNxm kb ve c0 q gk).indexj (c0 + t * (d * d) + k)
        = dofn (k % d) (nid (t / n) - 1)
      ∧ (mdIter d n dofn nid DNxm kb ve c0 q gk).stiffness (c0 + t * (d * d) + k)
        = kb * ve * (DNxm (k / d) (t % n) * DNxm (k % d) (t / n)) := by
  intro q
  induction q with
  | zero => intro gk t k ht _; omega
  | succ q ih =>
      intro gk t k ht hk
      by_cases hq : t = q
      · subst hq
        have hin : c0 + t * (d * d) ≤ c0 + t * (d * d) + k
            ∧ c0 + t * (d * d) + k < c0 + t * (d * d) + d * d := by omega
        have hsub : c0 + t * (d * d) + k - (c0 + t * (d * d)) = k := by omega
        simp only [mdIter, mdPairWrite, writeBlock]
        rw [if_pos hin, if_pos hin, if_pos hin, hsub]
        exact ⟨rfl, rfl, rfl⟩
      · have ht' : t < q := by omega
        have hlt : c0 + t * (d * d) + k < c0 + q * (d * d) := by
          have h1 : t * (d * d) + k < (t + 1) * (d * d) := by
            have : (t + 1) * (d * d) = t * (d * d) + d * d := by ring
            omega
          have h2 : (t + 1) * (d * d) ≤ q * (d * d) := by
            exact Nat.mul_le_mul_right _ (by omega)
          omega
        have hout : ¬(c0 + q * (d * d) ≤ c0 + t * (d * d) + k
            ∧ c0 + t * (d * d) + k < c0 + q * (d * d) + d * d) := by omega
        obtain ⟨h1, h2, h3⟩ := ih gk t k ht' hk
        simp only [mdIter, mdPairWrite, writeBlock]
        rw [if_neg hout, if_neg hout, if_neg hout]
        exact ⟨h1, h2, h3⟩

/-- C1: the source's Gauss loop accumulates the flattened force contribution
T.T.reshape(T.size, 1) without multiplying by the integration multiplier JW,
so the returned internal force vector is not the Gauss-weighted sum the
claim states.  At a concrete one-Gauss-point element with JW = 2 and unit
Cauchy stress, the code returns entry 1 where the claimed JW-weighted sum
has entry 2. -/
theorem C1_internal_force_missing_JW :
    resultForceEntry
      (ElementForceAndStiffness ctxC1 (Material.HyperElasticPlasticInPrincipal 0) gkZero) 0
      = some 1
    ∧ (pressAndKappaBar (Material.HyperElasticPlasticInPrincipal 0)
        (ve_of ctxC1 / ctxC1.Ve) ctxC1.log).1 = 0
    ∧ T_internal_specWeighted ctxC1 0 0 = 2
    ∧ resultForceEntry
        (ElementForceAndStiffness ctxC1 (Material.HyperElasticPlasticInPrincipal 0) gkZero) 0
        ≠ some (T_internal_specWeighted ctxC1 0 0) := by
  have hpress : (pressAndKappaBar (Material.HyperElasticPlasticInPrincipal 0)
      (ve_of ctxC1 / ctxC1.Ve) ctxC1.log).1 = 0 := by
    simp [pressAndKappaBar]
  have hcode : resultForceEntry
      (ElementForceAndStiffness ctxC1 (Material.HyperElasticPlasticInPrincipal 0) gkZero) 0
      = some 1 := by
    norm_num [resultForceEntry, ElementForceAndStiffness,
      Material.isHyperElasticPlasticInPrincipal, pressAndKappaBar, T_internal_of,
      T_flat_entry, mMul, CauchyAt, IdentityTensor.make, kron, JW_at, ve_of, ctxC1,
      Finset.sum_range_succ, Finset.sum_range_zero]
  have hspec : T_internal_specWeighted ctxC1 0 0 = 2 := by
    norm_num [T_internal_specWeighted, T_flat_entry, mMul, CauchyAt, IdentityTensor.make,
      kron, JW_at, ctxC1, pressAndKappaBar, Finset.sum_range_succ, Finset.sum_range_zero]
  refine ⟨hcode, hpress, hspec, ?_⟩
  rw [hcode, hspec]
  simp

/-- C2: after a full call on one element the shared triplet cursor has not
advanced by (dofs-per-element)^2 plus the mean-dilatation node-pair terms:
the mean-dilatation loop advances only a local copy of the cursor and never
stores it back, so with the out-of-src constitutive/geometric assembly
modelled per the spec as committing its 16 = n_dofs_elem^2 triplets, the
cursor ends at 16 while the claimed advance is 32. -/
theorem C2_cursor_advance_falls_short :
    ((ElementForceAndStiffness ctxC2 (Material.HyperElasticPlasticInPrincipal 1) gkZero).2).counter
      = 16
    ∧ specTripletAdvance ctxC2 = 32
    ∧ ((ElementForceAndStiffness ctxC2 (Material.HyperElasticPlasticInPrincipal 1) gkZero).2).counter
        ≠ gkZero.counter + specTripletAdvance ctxC2 := by
  decide

/-- C3: for every element of a HyperElasticPlasticInPrincipal material the
call computes once per element Jbar = ve / Ve, press = kappa * log Jbar /
Jbar and kappa_bar = kappa / Jbar - press, returns the force built from the
pressure-corrected stress, and hands kappa_bar and ve to the mean-dilatation
assembly; and at every Gauss point the stress used is the constitutive
Cauchy stress plus press times the identity, and the elasticity tensor used
is the constitutive tensor plus press times (c1 - c2). -/
theorem C3_mean_dilatation_pressure (ctx : EFSContext) (kappa : ℚ) (gk : GlobalK) :
    (ElementForceAndStiffness ctx (Material.HyperElasticPlasticInPrincipal kappa) gk =
      (Except.ok
        ⟨T_internal_of ctx (kappa * ctx.log (ve_of ctx / ctx.Ve) / (ve_of ctx / ctx.Ve)),
         ⟨ctx.epbar, ctx.invCp⟩⟩,
       meanDilatationAssembly ctx
         (kappa / (ve_of ctx / ctx.Ve)
           - kappa * ctx.log (ve_of ctx / ctx.Ve) / (ve_of ctx / ctx.Ve))
         (ve_of ctx) (DN_x_mean_of ctx)
         (gaussAssembly ctx (kappa * ctx.log (ve_of ctx / ctx.Ve) / (ve_of ctx / ctx.Ve)) gk)))
    ∧ (∀ press ig i j, CauchyAt ctx press ig i j
        = ctx.CauchySel ig i j + press * (IdentityTensor.make ctx.dim).I i j)
    ∧ (∀ press ig i j k l, elasticityAt ctx press ig i j k l
        = ctx.ElasticitySel ig i j k l
          + press * ((IdentityTensor.make ctx.dim).c1 i j k l
            - (IdentityTensor.make ctx.dim).c2 i j k l)) :=
  ⟨rfl, fun _ _ _ _ => rfl, fun _ _ _ _ _ _ => rfl⟩

/-- C4: the mean-dilatation stiffness contribution writes, per ordered node
pair (anode, bnode), one contiguous block of dim * dim triplets starting at
the local cursor position counter + (bnode * n_nodes + anode) * dim^2: the
values are kappa_bar * ve times the flattened outer product of the averaged
gradient columns of anode and bnode, the row indices come from the DOF map
of anode and the column indices from the DOF map of bnode; and no position
outside the n_nodes^2 * dim^2 range of this element is touched. -/
theorem C4_mean_dilatation_blocks (ctx : EFSContext) (kappa_bar ve : ℚ)
    (DNxm : ℕ → ℕ → ℚ) (gk : GlobalK) (bnode anode k : ℕ)
    (hb : bnode < ctx.element_info.n_nodes_elem)
    (ha : anode < ctx.element_info.n_nodes_elem)
    (hk : k < ctx.dim * ctx.dim) :
    (meanDilatationAssembly ctx kappa_bar ve DNxm gk).stiffness
        (gk.counter + (bnode * ctx.element_info.n_nodes_elem + anode) * (ctx.dim * ctx.dim) + k)
      = kappa_bar * ve * (DNxm (k / ctx.dim) anode * DNxm (k % ctx.dim) bnode)
    ∧ (meanDilatationAssembly ctx kappa_bar ve DNxm gk).indexi
        (gk.counter + (bnode * ctx.element_info.n_nodes_elem + anode) * (ctx.dim * ctx.dim) + k)
      = ctx.dof_nodes (k % ctx.dim) (ctx.node_ids anode - 1)
    ∧ (meanDilatationAssembly ctx kappa_bar ve DNxm gk).indexj
        (gk.counter + (bnode * ctx.element_info.n_nodes_elem + anode) * (ctx.dim * ctx.dim) + k)
      = ctx.dof_nodes (k % ctx.dim) (ctx.node_ids bnode - 1)
    ∧ (∀ p, p < gk.counter
          ∨ gk.counter + ctx.element_info.n_nodes_elem ^ 2 * ctx.dim ^ 2 ≤ p →
        (meanDilatationAssembly ctx kappa_bar ve DNxm gk).indexi p = gk.indexi p
        ∧ (meanDilatationAssembly ctx kappa_bar ve DNxm gk).indexj p = gk.indexj p
        ∧ (meanDilatationAssembly ctx kappa_bar ve DNxm gk).stiffness p = gk.stiffness p) := by
  set n := ctx.element_info.n_nodes_elem with hn
  set d := ctx.dim with hd
  have hnpos : 0 < n := by omega
  have htlt : bnode * n + anode < n * n := by
    have h1 : (bnode + 1) * n ≤ n * n := Nat.mul_le_mul_right _ (by omega)
    have h2 : (bnode + 1) * n = bnode * n + n := by ring
    omega
  have hmod : (bnode * n + anode) % n = anode := by
    rw [Nat.add_comm, Nat.add_mul_mod_self_right]
    exact Nat.mod_eq_of_lt ha
  have hdiv : (bnode * n + anode) / n = bnode := by
    rw [Nat.add_comm, Nat.add_mul_div_right _ _ hnpos, Nat.div_eq_of_lt ha]
    omega
  have hcontent := mdIter_content d n ctx.dof_nodes ctx.node_ids DNxm kappa_bar ve
    gk.counter (n * n) gk (bnode * n + anode) k htlt hk
  rw [hmod, hdiv] at hcontent
  refine ⟨hcontent.2.2, hcontent.1, hcontent.2.1, ?_⟩
  intro p hp
  have hp' : p < gk.counter ∨ gk.counter + (n * n) * (d * d) ≤ p := by
    rcases hp with h | h
    · exact Or.inl h
    · right
      have : n ^ 2 * d ^ 2 = (n * n) * (d * d) := by ring
      omega
  have hframe := mdIter_frame d n ctx.dof_nodes ctx.node_ids DNxm kappa_bar ve
    gk.counter (n * n) gk p hp'
  exact ⟨hframe.1, hframe.2.1, hframe.2.2⟩

/-- C4 witness: the general block theorem instantiated at a concrete
two-node two-dimensional element, node pair (anode, bnode) = (0, 1) and
block offset k = 3: position 11 = 0 + (1 * 2 + 0) * 4 + 3 holds the value
2 * 3 * (DNxmW[1,0] * DNxmW[1,1]) = 12, row index dof_nodes[1, 0] = 1 and
column index dof_nodes[1, 1] = 11. -/
theorem C4_mean_dilatation_blocks_witness :
    (1 : ℕ) < ctxC4.element_info.n_nodes_elem
    ∧ (0 : ℕ) < ctxC4.element_info.n_nodes_elem
    ∧ (3 : ℕ) < ctxC4.dim * ctxC4.dim
    ∧ (meanDilatationAssembly ctxC4 2 3 DNxmW gkZero).stiffness 11 = 12
    ∧ (meanDilatationAssembly ctxC4 2 3 DNxmW gkZero).indexi 11 = 1
    ∧ (meanDilatationAssembly ctxC4 2 3 DNxmW gkZero).indexj 11 = 11 := by
  have h := C4_mean_dilatation_blocks ctxC4 2 3 DNxmW gkZero 1 0 3
    (by decide) (by decide) (by decide)
  obtain ⟨h1, h2, h3, -⟩ := h
  norm_num [ctxC4, ctxC1, DNxmW, gkZero] at h1 h2 h3
  exact ⟨by decide, by decide, by decide, h1, h2, h3⟩

/-- C5: a call with a material that is not HyperElasticPlasticInPrincipal
raises NoImplSuchMaterial carrying the material's name, and the shared
triplet buffer is returned exactly as it was (no partial commit); no result
is produced. -/
theorem C5_unsupported_material_aborts (ctx : EFSContext) (mat : Material) (gk : GlobalK)
    (h : mat.isHyperElasticPlasticInPrincipal = false) :
    ElementForceAndStiffness ctx mat gk
      = (Except.error (EFSError.NoImplSuchMaterial mat.GetName), gk) := by
  cases mat with
  | HyperElasticPlasticInPrincipal kappa =>
      simp [Material.isHyperElasticPlasticInPrincipal] at h
  | OtherMaterial s => rfl

/-- C5 witness: the abort theorem at a concrete unsupported material named
Elastic. -/
theorem C5_unsupported_material_aborts_witness :
    ElementForceAndStiffness ctxC1 (Material.OtherMaterial "Elastic") gkZero
      = (Except.error (EFSError.NoImplSuchMaterial "Elastic"), gkZero) :=
  C5_unsupported_material_aborts ctxC1 (Material.OtherMaterial "Elastic") gkZero rfl

/-- C6: ChooseIncrementalAlgorithm runs the plain Newton-Raphson algorithm
exactly when the arc-length magnitude is zero and line search is disabled,
the line-search variant exactly when the magnitude is zero and line search
is enabled, and the arc-length variant exactly when the magnitude is
nonzero; since the result is a single algorithm tag, exactly one of the
three runs per call. -/
theorem C6_algorithm_dispatch (CON : SolveControl) :
    (ChooseIncrementalAlgorithm CON = IncrementalAlgorithm.NewtonRaphson
      ↔ CON.arcln = 0 ∧ CON.searc = false)
    ∧ (ChooseIncrementalAlgorithm CON = IncrementalAlgorithm.LineSearchNewtonRaphson
      ↔ CON.arcln = 0 ∧ CON.searc = true)
    ∧ (ChooseIncrementalAlgorithm CON = IncrementalAlgorithm.ArcLengthNewtonRaphson
      ↔ CON.arcln ≠ 0) := by
  obtain ⟨a, s⟩ := CON
  by_cases ha : a = 0 <;> cases s <;>
    simp [ChooseIncrementalAlgorithm, abs_eq_zero, ha]

/-- C7: the inner type check guarding the pressure computation repeats the
enclosing material check, so every execution that passes the outer check
takes the pressure branch: the pair (press, kappa_bar) computed by lines
60-66 always equals the pressure-branch formulas in the material's kappa,
and the else assignment press = 0, kappa_bar = 0 is never the branch
executed. -/
theorem C7_inner_branch_always_pressure (mat : Material) (Jbar : ℚ) (log : ℚ → ℚ)
    (h : mat.isHyperElasticPlasticInPrincipal = true) :
    pressAndKappaBar mat Jbar log = pressureBranch mat.kappaValue Jbar log := by
  cases mat with
  | HyperElasticPlasticInPrincipal kappa => rfl
  | OtherMaterial s =>
      simp [Material.isHyperElasticPlasticInPrincipal] at h

/-- C7 witness: the inner-branch theorem at kappa = 3, Jbar = 2 and a
concrete logarithm model. -/
theorem C7_inner_branch_always_pressure_witness :
    Material.isHyperElasticPlasticInPrincipal
        (Material.HyperElasticPlasticInPrincipal 3) = true
    ∧ pressAndKappaBar (Material.HyperElasticPlasticInPrincipal 3) 2 (fun _ => 5)
      = pressureBranch 3 2 (fun _ => 5) :=
  ⟨rfl, C7_inner_branch_always_pressure
    (Material.HyperElasticPlasticInPrincipal 3) 2 (fun _ => 5) rfl⟩

/-- C8 counterexample: from a fresh process state, calling NLDomain() twice
returns the same instance id both times, but the second construction
re-runs __init__ and re-creates the owned sub-objects: the identity_tensor
attribute refers to object 2 after the first call and to a different, fresh
object 9 after the second, so the attributes are not left unchanged. -/
theorem C8_reinit_counterexample :
    (NLDomain_call ((NLDomain_call pyStart).1)).2 = (NLDomain_call pyStart).2
    ∧ ((NLDomain_call pyStart).1).attrs.map NLAttrs.identity_tensor = some 2
    ∧ ((NLDomain_call ((NLDomain_call pyStart).1)).1).attrs.map NLAttrs.identity_tensor
        = some 9
    ∧ ((NLDomain_call ((NLDomain_call pyStart).1)).1).attrs
        ≠ ((NLDomain_call pyStart).1).attrs := by
  decide

/-- C8 as amended: every call to NLDomain() returns the identical single
instance, but each call re-runs __init__, which replaces the owned
sub-objects with freshly constructed ones instead of leaving them
unchanged. -/
theorem C8_singleton_reinit (s : PyHeapState) :
    (NLDomain_call ((NLDomain_call s).1)).2 = (NLDomain_call s).2
    ∧ (NLDomain_call ((NLDomain_call s).1)).1.attrs ≠ (NLDomain_call s).1.attrs
    ∧ ∃ t, (NLDomain_call ((NLDomain_call s).1)).1.attrs
        = some ⟨t, t + 1, t + 2, t + 3, t + 4, t + 5, t + 6⟩ := by
  obtain ⟨io, ao, nid⟩ := s
  cases io with
  | none =>
      refine ⟨rfl, ?_, nid + 8, rfl⟩
      simp only [NLDomain_call, NLDomain_new, NLDomain_init, Option.some.injEq,
        NLAttrs.mk.injEq, ne_eq]
      omega
  | some j =>
      refine ⟨rfl, ?_, nid + 7, rfl⟩
      simp only [NLDomain_call, NLDomain_new, NLDomain_init, Option.some.injEq,
        NLAttrs.mk.injEq, ne_eq]
      omega

/-- C9: Beam188.ElementStiffness never produces a stiffness matrix: every
call either raises during the computation (in the embedding the attribute
lookup of the undefined BeamCalculator.GetEquivalentCoff, or an earlier
section error) or would fall off the end returning None; it never returns
a matrix. -/
theorem C9_beam188_no_stiffness (inp : Beam188Input) :
    ((∃ e, Beam188ElementStiffness inp = Except.error e)
      ∨ Beam188ElementStiffness inp = Except.ok none)
    ∧ ∀ M, Beam188ElementStiffness inp ≠ Except.ok (some M) := by
  have hg : BeamCalculatorGetattr "GetEquivalentCoff"
      = Except.error (PyError.AttributeError "GetEquivalentCoff") := by
    simp [BeamCalculatorGetattr, BeamCalculatorAttributes]
  unfold Beam188ElementStiffness
  cases h : CalculateMomentOfInertiaOfArea inp.pi inp.sec_type inp.sec_data with
  | error e =>
      constructor
      · exact Or.inl ⟨e, by simp⟩
      · intro M
        simp
  | ok v =>
      constructor
      · exact Or.inl ⟨PyError.AttributeError "GetEquivalentCoff", by simp [hg]⟩
      · intro M
        simp [hg]

/-- C10: a call to ElementForceAndStiffness that returns normally leaves the
shared write cursor unchanged: the mean-dilatation loop reads the cursor
into a local variable and advances only that copy, never storing it back,
so for any behavior of the out-of-src constitutive/geometric subroutines
that does not itself move the cursor, the cursor after the call equals the
cursor before. -/
theorem C10_counter_preserved (ctx : EFSContext) (mat : Material) (gk : GlobalK)
    (hC : ∀ ig c jw gk', (ctx.ConstitutiveMatrixCall ig c jw gk').counter = gk'.counter)
    (hG : ∀ M jw gk', (ctx.GeometricMatrixCall M jw gk').counter = gk'.counter) :
    ((ElementForceAndStiffness ctx mat gk).2).counter = gk.counter := by
  cases mat with
  | OtherMaterial s => rfl
  | HyperElasticPlasticInPrincipal kappa =>
      show (meanDilatationAssembly _ _ _ _ (gaussAssembly _ _ gk)).counter = gk.counter
      rw [meanDilatationAssembly, mdIter_counter]
      exact gaussAssembly_counter_eq ctx _ hC hG _ gk

/-- C10 witness: the cursor-preservation theorem at the concrete element
context whose assembly subroutines are buffer-preserving. -/
theorem C10_counter_preserved_witness :
    ((ElementForceAndStiffness ctxC1 (Material.HyperElasticPlasticInPrincipal 0) gkZero).2).counter
      = gkZero.counter :=
  C10_counter_preserved ctxC1 (Material.HyperElasticPlasticInPrincipal 0) gkZero
    (fun _ _ _ _ => rfl) (fun _ _ _ => rfl)

end MyPyFEM
